import Mathlib

/-!
Shallow embedding of `src/main.py` (Fedpath): credential store
(`hash_password`, `signup_user`, `login_user`), air-quality client
(`get_weather_details`), geocoding/routing client (`geocode_location`,
`get_route_details`), and the route journal (save / list paths of
`traffic_and_weather_app`).  External services (MySQL, the AQICN and
TomTom HTTP APIs, the filesystem) are modelled as explicit inputs; the
Python control flow over their responses is translated directly.
Exceptions escaping a function are modelled with `Except`.
-/

namespace Fedpath

/-! ## SHA-256 (the body of `hash_password`, i.e. `hashlib.sha256(...).hexdigest()`)

32-bit words are `Nat`s reduced modulo `2 ^ 32` where overflow matters. -/

def w32 : Nat := 4294967296

def rotr (n x : Nat) : Nat :=
  ((x >>> n) ||| (x <<< (32 - n))) % w32

def bSig0 (x : Nat) : Nat := (rotr 2 x) ^^^ (rotr 13 x) ^^^ (rotr 22 x)

def bSig1 (x : Nat) : Nat := (rotr 6 x) ^^^ (rotr 11 x) ^^^ (rotr 25 x)

def sSig0 (x : Nat) : Nat := (rotr 7 x) ^^^ (rotr 18 x) ^^^ (x >>> 3)

def sSig1 (x : Nat) : Nat := (rotr 17 x) ^^^ (rotr 19 x) ^^^ (x >>> 10)

/-- The 64 SHA-256 round constants of FIPS 180-4, written in decimal. -/
def shaK : List Nat :=
  [1116352408, 1899447441, 3049323471, 3921009573, 961987163, 1508970993,
   2453635748, 2870763221, 3624381080, 310598401, 607225278, 1426881987,
   1925078388, 2162078206, 2614888103, 3248222580, 3835390401, 4022224774,
   264347078, 604807628, 770255983, 1249150122, 1555081692, 1996064986,
   2554220882, 2821834349, 2952996808, 3210313671, 3336571891, 3584528711,
   113926993, 338241895, 666307205, 773529912, 1294757372, 1396182291,
   1695183700, 1986661051, 2177026350, 2456956037, 2730485921, 2820302411,
   3259730800, 3345764771, 3516065817, 3600352804, 4094571909, 275423344,
   430227734, 506948616, 659060556, 883997877, 958139571, 1322822218,
   1537002063, 1747873779, 1955562222, 2024104815, 2227730452, 2361852424,
   2428436474, 2756734187, 3204031479, 3329325298]

structure Hs where
  a : Nat
  b : Nat
  c : Nat
  d : Nat
  e : Nat
  f : Nat
  g : Nat
  h : Nat
deriving Repr, DecidableEq

/-- The eight SHA-256 initial hash values of FIPS 180-4, in decimal. -/
def shaH0 : Hs :=
  ⟨1779033703, 3144134277, 1013904242, 2773480762,
   1359893119, 2600822924, 528734635, 1541459225⟩

/-- One compression round with schedule word `wi` and constant `ki`. -/
def shaRound (s : Hs) (wi ki : Nat) : Hs :=
  let ch := (s.e &&& s.f) ^^^ ((s.e ^^^ (w32 - 1)) &&& s.g)
  let maj := (s.a &&& s.b) ^^^ (s.a &&& s.c) ^^^ (s.b &&& s.c)
  let t1 := (s.h + bSig1 s.e + ch + ki + wi) % w32
  let t2 := (bSig0 s.a + maj) % w32
  ⟨(t1 + t2) % w32, s.a, s.b, s.c, (s.d + t1) % w32, s.e, s.f, s.g⟩

/-- Big-endian 32-bit words from a 64-byte block. -/
def words16 (block : List Nat) : List Nat :=
  (List.range 16).map fun i =>
    (block.getD (4 * i) 0) * 0x1000000 + (block.getD (4 * i + 1) 0) * 0x10000 +
    (block.getD (4 * i + 2) 0) * 0x100 + block.getD (4 * i + 3) 0

/-- Extend the 16 message words to the 64-word schedule. -/
def schedule (ws : List Nat) : List Nat :=
  (List.range 48).foldl
    (fun acc i =>
      acc ++ [(acc.getD i 0 + sSig0 (acc.getD (i + 1) 0) + acc.getD (i + 9) 0 +
               sSig1 (acc.getD (i + 14) 0)) % w32])
    ws

def compressBlock (h : Hs) (block : List Nat) : Hs :=
  let ws := schedule (words16 block)
  let s := (List.range 64).foldl (fun s i => shaRound s (ws.getD i 0) (shaK.getD i 0)) h
  ⟨(h.a + s.a) % w32, (h.b + s.b) % w32, (h.c + s.c) % w32, (h.d + s.d) % w32,
   (h.e + s.e) % w32, (h.f + s.f) % w32, (h.g + s.g) % w32, (h.h + s.h) % w32⟩

/-- Big-endian bytes of `n`, `k` bytes wide. -/
def beBytes (k n : Nat) : List Nat :=
  (List.range k).map fun i => (n >>> (8 * (k - 1 - i))) &&& 0xff

/-- SHA-256 padding of a byte string. -/
def shaPad (msg : List Nat) : List Nat :=
  let padZeros := (64 + 56 - (msg.length + 1) % 64) % 64
  msg ++ [0x80] ++ List.replicate padZeros 0 ++ beBytes 8 (8 * msg.length)

def chunks64 (l : List Nat) : List (List Nat) :=
  (List.range (l.length / 64)).map fun i => (l.drop (64 * i)).take 64

def sha256Words (msg : List Nat) : Hs :=
  (chunks64 (shaPad msg)).foldl compressBlock shaH0

def hexDigit (n : Nat) : Char :=
  if n < 10 then Char.ofNat (48 + n) else Char.ofNat (87 + n)

def hexByte (n : Nat) : List Char := [hexDigit (n / 16), hexDigit (n % 16)]

def hexWord32 (n : Nat) : List Char :=
  hexByte (n / 0x1000000) ++ hexByte ((n / 0x10000) % 0x100) ++
  hexByte ((n / 0x100) % 0x100) ++ hexByte (n % 0x100)

/-- UTF-8 encoding of one character (what `str.encode()` does per code point). -/
def utf8Bytes (c : Char) : List Nat :=
  let n := c.toNat
  if n < 0x80 then [n]
  else if n < 0x800 then [0xc0 ||| (n >>> 6), 0x80 ||| (n &&& 0x3f)]
  else if n < 0x10000 then
    [0xe0 ||| (n >>> 12), 0x80 ||| ((n >>> 6) &&& 0x3f), 0x80 ||| (n &&& 0x3f)]
  else
    [0xf0 ||| (n >>> 18), 0x80 ||| ((n >>> 12) &&& 0x3f),
     0x80 ||| ((n >>> 6) &&& 0x3f), 0x80 ||| (n &&& 0x3f)]

def strBytes (s : String) : List Nat := (s.toList.map utf8Bytes).flatten

/-- `hashlib.sha256(s.encode()).hexdigest()`. -/
def sha256Hex (s : String) : String :=
  let d := sha256Words (strBytes s)
  ⟨hexWord32 d.a ++ hexWord32 d.b ++ hexWord32 d.c ++ hexWord32 d.d ++
   hexWord32 d.e ++ hexWord32 d.f ++ hexWord32 d.g ++ hexWord32 d.h⟩

/-- `hash_password` from `src/main.py`. -/
def hash_password (password : String) : String := sha256Hex password

/-! ## Credential store

The `users` table (`create_user_table`) is modelled as a list of rows in
insertion order; the `UNIQUE` constraint on `username` makes an `INSERT`
with a duplicate username raise, which `signup_user` catches.  `login_user`
models the `SELECT ... WHERE username = :username AND password = :password`
followed by `fetchone() is not None`. -/

structure UserRow where
  first_name : String
  last_name : String
  username : String
  password : String
  mobile_number : String
  vehicle_number : String
  vehicle_type : String
deriving Repr, DecidableEq

abbrev UserTable := List UserRow

/-- The `UNIQUE NOT NULL` constraint on `username` declared by
`create_user_table`: an insert succeeds iff no existing row has the
same username. -/
def usernameTaken (table : UserTable) (u : String) : Bool :=
  table.any fun r => r.username == u

/-- `signup_user` from `src/main.py`: hash the password, attempt the
`INSERT`; a raised duplicate-key error is caught and reported, returning
`false`.  Returns the flag together with the table after the attempt. -/
def signup_user (table : UserTable) (first_name last_name username password
    mobile_number vehicle_number vehicle_type : String) : Bool × UserTable :=
  if usernameTaken table username then
    (false, table)
  else
    (true, table ++ [⟨first_name, last_name, username, hash_password password,
                      mobile_number, vehicle_number, vehicle_type⟩])

/-- `login_user` from `src/main.py`: `fetchone()` on the exact-match
`SELECT` is non-`None` iff some row matches both columns. -/
def login_user (table : UserTable) (username password : String) : Bool :=
  table.any fun r => r.username == username && r.password == hash_password password

/-! ## Air-quality client (`get_weather_details`)

The AQICN response is a JSON object; `response.get("data")` may be a
dict (success payload) or something else (e.g. the error string), and
`response.get("status")` may be absent.  A `requests` transport failure
is the `netError` case of `WeatherFetch`. -/

inductive WData where
  /-- `data` is a JSON dict; `aqi` and `city.name` may each be absent. -/
  | dict (aqi : Option String) (cityName : Option String)
  /-- `data` is not a dict (e.g. an error string such as "Unknown station"). -/
  | other (s : String)
deriving Repr, DecidableEq

structure WeatherResponse where
  status : Option String
  data : Option WData
deriving Repr, DecidableEq

inductive WeatherFetch where
  | success (resp : WeatherResponse)
  /-- `requests.exceptions.RequestException` raised by the HTTP call. -/
  | netError
deriving Repr, DecidableEq

/-- `isinstance(response.get("data"), dict)`. -/
def isDict : Option WData → Bool
  | some (.dict _ _) => true
  | _ => false

/-- The guard of the success branch:
`response.get("status") != "error" and isinstance(response.get("data"), dict)`. -/
def weatherOk (resp : WeatherResponse) : Bool :=
  !(resp.status == some "error") && isDict resp.data

/-- `get_weather_details` from `src/main.py`.  Returns the
(air-quality-index, city-name) pair of strings exactly as the Python
does on each branch. -/
def get_weather_details (city : String) (fetch : WeatherFetch) : String × String :=
  if city = "" then
    ("N/A", "City not provided")
  else
    match fetch with
    | .netError => ("N/A", "Error fetching data")
    | .success resp =>
      if weatherOk resp then
        match resp.data with
        | some (.dict aqi cityName) => (aqi.getD "N/A", cityName.getD "Unknown")
        | _ => ("N/A", "City not found")
      else ("N/A", "City not found")

/-! ## Geocoding client (`geocode_location`) -/

structure GeoPosition where
  lat : ℚ
  lon : ℚ
deriving Repr, DecidableEq

structure GeoResponse where
  /-- `response.get("results")`: `none` when the key is absent. -/
  results : Option (List GeoPosition)
deriving Repr, DecidableEq

/-- `geocode_location` from `src/main.py`: `if response.get("results"):`
is a truthiness test, so both an absent key and an empty list take the
error branch; otherwise the first result's position is returned. -/
def geocode_location (resp : GeoResponse) : Option ℚ × Option ℚ :=
  match resp.results with
  | some (p :: _) => (some p.lat, some p.lon)
  | _ => (none, none)

/-! ## Routing client (`get_route_details`)

Python numbers on this path are modelled as rationals.  The Python
indexes `route_response["routes"][0]` and `route["legs"][0]` without
guarding emptiness, so an empty `routes` or `legs` array raises an
uncaught `IndexError`, modelled as `Except.error`. -/

structure RouteLeg where
  points : List (ℚ × ℚ)
deriving Repr, DecidableEq

structure Route where
  travelTimeInSeconds : ℚ
  lengthInMeters : ℚ
  legs : List RouteLeg
deriving Repr, DecidableEq

structure RouteResponse where
  /-- `none` when `"routes" in route_response` is false. -/
  routes : Option (List Route)
deriving Repr, DecidableEq

structure RouteDetails where
  travel_time : ℚ
  route_distance : ℚ
  emissions : ℚ
  geometry : List (ℚ × ℚ)
deriving Repr, DecidableEq

/-- The emission factor chosen by `get_route_details`'s if/elif/else. -/
def emission_factor (vehicle_type : String) : ℚ :=
  if vehicle_type = "Gasoline" then 2.31
  else if vehicle_type = "Diesel" then 2.68
  else 0

/-- `get_route_details` from `src/main.py`.  `Except.ok none` is the
`(None, None, None, None)` return after `st.error`; `Except.error ()`
is an uncaught exception (IndexError on an empty array). -/
def get_route_details (resp : RouteResponse) (vehicle_type : String)
    (fuel_efficiency : ℚ) : Except Unit (Option RouteDetails) :=
  match resp.routes with
  | none => .ok none
  | some [] => .error ()
  | some (route :: _) =>
    match route.legs with
    | [] => .error ()
    | leg :: _ =>
      let travel_time := route.travelTimeInSeconds / 60
      let route_distance := route.lengthInMeters / 1000
      let emissions := (route_distance / fuel_efficiency) * emission_factor vehicle_type
      .ok (some ⟨travel_time, route_distance, emissions, leg.points⟩)

/-! ## Route journal (save / list paths of `traffic_and_weather_app`)

`saved_routes.json` is modelled as `Option JournalFile`: `none` when the
file is absent (raises `FileNotFoundError`, which both paths catch), and
`some .invalid` when the file exists but `json.load` fails (an exception
neither path catches, modelled as `Except.error`). -/

structure RouteSummary where
  weather_city : String
  start_location : String
  end_location : String
  travel_time : ℚ
  route_distance : ℚ
  emissions : ℚ
  route_map : String
deriving Repr, DecidableEq

inductive JournalFile where
  | valid (routes : List RouteSummary)
  | invalid
deriving Repr, DecidableEq

/-- The save-route path: `saved_routes = []`, read the file catching
only `FileNotFoundError`, append, rewrite the whole file. -/
def saveRoute (file : Option JournalFile) (summary : RouteSummary) :
    Except Unit (Option JournalFile) :=
  match file with
  | none => .ok (some (.valid [summary]))
  | some (.valid saved) => .ok (some (.valid (saved ++ [summary])))
  | some .invalid => .error ()

/-- The Saved Routes path: read and render every saved summary, catching
only `FileNotFoundError` (absent file shows none). -/
def listRoutes (file : Option JournalFile) : Except Unit (List RouteSummary) :=
  match file with
  | none => .ok []
  | some (.valid saved) => .ok saved
  | some .invalid => .error ()

/-- Apply `saveRoute` once per summary, left to right, propagating an
uncaught exception. -/
def saveAll (file : Option JournalFile) (summaries : List RouteSummary) :
    Except Unit (Option JournalFile) :=
  match summaries with
  | [] => .ok file
  | s :: rest => (saveRoute file s).bind fun f => saveAll f rest

/-! ## Theorems -/

/-- C1: for every successful route response with distance `d` km, fuel
efficiency `e > 0` and vehicle type `v`, `get_route_details` computes the
emissions estimate as exactly `(d / e) * factor`, where the factor is
2.31 for "Gasoline", 2.68 for "Diesel" and 0 for "Electric"; the estimate
is 0 for an electric vehicle regardless of `d` and `e`, and 0 whenever
`d = 0`. -/
theorem emissions_formula (route : Route) (rest : List Route) (leg : RouteLeg)
    (lgs : List RouteLeg) (v : String) (e : ℚ)
    (hlegs : route.legs = leg :: lgs) (he : 0 < e) :
    ∃ d : RouteDetails,
      get_route_details ⟨some (route :: rest)⟩ v e = .ok (some d) ∧
      d.route_distance = route.lengthInMeters / 1000 ∧
      d.emissions = (d.route_distance / e) * emission_factor v ∧
      emission_factor "Gasoline" = 2.31 ∧
      emission_factor "Diesel" = 2.68 ∧
      emission_factor "Electric" = 0 ∧
      (v = "Electric" → d.emissions = 0) ∧
      (route.lengthInMeters = 0 → d.emissions = 0) := by
  refine ⟨⟨route.travelTimeInSeconds / 60, route.lengthInMeters / 1000,
          (route.lengthInMeters / 1000 / e) * emission_factor v, leg.points⟩,
    ?_, rfl, rfl, by simp [emission_factor], by simp [emission_factor],
    by simp [emission_factor], ?_, ?_⟩
  · simp [get_route_details, hlegs]
  · rintro rfl
    have h0 : emission_factor "Electric" = 0 := by simp [emission_factor]
    simp [h0]
  · intro h0
    simp [h0]

theorem emissions_formula_witness :
    ∃ d : RouteDetails,
      get_route_details ⟨some [⟨600, 12000, [⟨[]⟩]⟩]⟩ "Gasoline" 15 = .ok (some d) ∧
      d.route_distance = (⟨600, 12000, [⟨[]⟩]⟩ : Route).lengthInMeters / 1000 ∧
      d.emissions = (d.route_distance / 15) * emission_factor "Gasoline" ∧
      emission_factor "Gasoline" = 2.31 ∧
      emission_factor "Diesel" = 2.68 ∧
      emission_factor "Electric" = 0 ∧
      ("Gasoline" = "Electric" → d.emissions = 0) ∧
      ((⟨600, 12000, [⟨[]⟩]⟩ : Route).lengthInMeters = 0 → d.emissions = 0) :=
  emissions_formula ⟨600, 12000, [⟨[]⟩]⟩ [] ⟨[]⟩ [] "Gasoline" 15 rfl (by norm_num)

/-- C9: the emission factor is 0 for every vehicle type string other than
exactly "Gasoline" or "Diesel" — not only for "Electric" — so any
unrecognized vehicle type silently yields an emissions estimate of 0. -/
theorem emission_factor_default_zero (v : String)
    (h1 : v ≠ "Gasoline") (h2 : v ≠ "Diesel") :
    emission_factor v = 0 ∧
    ∀ (route : Route) (rest : List Route) (leg : RouteLeg) (lgs : List RouteLeg)
      (e : ℚ), route.legs = leg :: lgs →
      ∃ d : RouteDetails,
        get_route_details ⟨some (route :: rest)⟩ v e = .ok (some d) ∧
        d.emissions = 0 := by
  have hf : emission_factor v = 0 := by simp [emission_factor, h1, h2]
  refine ⟨hf, ?_⟩
  intro route rest leg lgs e hlegs
  refine ⟨⟨route.travelTimeInSeconds / 60, route.lengthInMeters / 1000,
          (route.lengthInMeters / 1000 / e) * emission_factor v, leg.points⟩, ?_, ?_⟩
  · simp [get_route_details, hlegs]
  · simp [hf]

theorem emission_factor_default_zero_witness :
    emission_factor "Petrol" = 0 ∧
    ∀ (route : Route) (rest : List Route) (leg : RouteLeg) (lgs : List RouteLeg)
      (e : ℚ), route.legs = leg :: lgs →
      ∃ d : RouteDetails,
        get_route_details ⟨some (route :: rest)⟩ "Petrol" e = .ok (some d) ∧
        d.emissions = 0 :=
  emission_factor_default_zero "Petrol" (by decide) (by decide)

/-- C5 counterexample: the response `{"routes": []}` contains no route,
yet `get_route_details` raises an uncaught IndexError on it instead of
returning the absent `(None, None, None, None)` result. -/
theorem no_route_raises_cex :
    get_route_details ⟨some []⟩ "Gasoline" 15 = Except.error () ∧
    get_route_details ⟨some []⟩ "Gasoline" 15 ≠ Except.ok none :=
  ⟨rfl, fun h => Except.noConfusion h⟩

/-- C5 (amended): for every upstream routing response that lacks the
"routes" key, `get_route_details` returns an absent result (all four
components None) after reporting a user-visible error and does not
raise; a response whose "routes" key holds an empty array instead
raises an uncaught IndexError. -/
theorem no_routes_key_absent_result (resp : RouteResponse) (v : String) (e : ℚ)
    (h : resp.routes = none) :
    get_route_details resp v e = Except.ok none ∧
    get_route_details ⟨some []⟩ v e = Except.error () := by
  constructor
  · simp [get_route_details, h]
  · rfl

theorem no_routes_key_absent_result_witness :
    get_route_details ⟨none⟩ "Gasoline" 15 = Except.ok none ∧
    get_route_details ⟨some []⟩ "Gasoline" 15 = Except.error () :=
  no_routes_key_absent_result ⟨none⟩ "Gasoline" 15 rfl

/-- C7: when the geocoding response contains no match (absent or empty
`results`), `geocode_location` returns the absent pair `(None, None)`
with a user-visible error; with at least one result it returns the
(latitude, longitude) of the first result. -/
theorem geocode_first_or_absent (resp : GeoResponse) :
    ((resp.results = none ∨ resp.results = some []) →
      geocode_location resp = (none, none)) ∧
    ∀ (p : GeoPosition) (rest : List GeoPosition),
      resp.results = some (p :: rest) →
      geocode_location resp = (some p.lat, some p.lon) := by
  constructor
  · rintro (h | h) <;> simp [geocode_location, h]
  · intro p rest h
    simp [geocode_location, h]

theorem geocode_first_or_absent_witness :
    geocode_location ⟨none⟩ = (none, none) ∧
    geocode_location ⟨some [⟨48.8566, 2.3522⟩]⟩ = (some 48.8566, some 2.3522) :=
  ⟨(geocode_first_or_absent ⟨none⟩).1 (Or.inl rfl),
   (geocode_first_or_absent ⟨some [⟨48.8566, 2.3522⟩]⟩).2 ⟨48.8566, 2.3522⟩ [] rfl⟩

/-- C10: if the journal file exists but holds invalid JSON, both the
save-route path and the listing path raise an uncaught exception (only
the file-absent case is handled). -/
theorem invalid_journal_raises (s : RouteSummary) :
    saveRoute (some .invalid) s = Except.error () ∧
    listRoutes (some JournalFile.invalid) = Except.error () :=
  ⟨rfl, rfl⟩

/-- Saving on top of a well-formed journal rewrites it with the new
summary appended. -/
theorem saveAll_from_valid (L : List RouteSummary) :
    ∀ acc : List RouteSummary,
      saveAll (some (.valid acc)) L = .ok (some (.valid (acc ++ L))) := by
  induction L with
  | nil => intro acc; simp [saveAll]
  | cons s rest ih =>
    intro acc
    simp only [saveAll, saveRoute, Except.bind, ih]
    simp

/-- C2: starting from an absent journal file, appending N route summaries
one at a time via the save-route path and then listing returns exactly
those N summaries in append order; listing with the file absent returns
the empty sequence. -/
theorem journal_append_then_list (L : List RouteSummary) :
    (saveAll none L).bind (fun f => listRoutes f) = Except.ok L ∧
    listRoutes (none : Option JournalFile) = Except.ok ([] : List RouteSummary) := by
  constructor
  · match L with
    | [] => rfl
    | s :: rest =>
      simp only [saveAll, saveRoute, Except.bind, saveAll_from_valid]
      simp [listRoutes]
  · rfl

/-- C6: a signup whose username already exists in the user table reports
the failure and returns `false` without crashing, and the user table is
unchanged by the attempt. -/
theorem duplicate_signup_rejected (table : UserTable)
    (fn ln u p mob vn vt : String) (h : usernameTaken table u = true) :
    signup_user table fn ln u p mob vn vt = (false, table) := by
  simp [signup_user, h]

theorem duplicate_signup_rejected_witness :
    signup_user [⟨"Ann", "Lee", "bob", "digest0", "99", "TN1", "Diesel"⟩]
      "Bo" "Ray" "bob" "pw" "88" "TN2" "Gasoline" =
    (false, [⟨"Ann", "Lee", "bob", "digest0", "99", "TN1", "Diesel"⟩]) :=
  duplicate_signup_rejected _ "Bo" "Ray" "bob" "pw" "88" "TN2" "Gasoline" (by decide)

/-- C8: `hash_password` is deterministic: two evaluations on the same
password return the same digest, and equal inputs give equal digests. -/
theorem hash_password_deterministic (p p1 p2 : String) :
    hash_password p = hash_password p ∧
    (p1 = p2 → hash_password p1 = hash_password p2) :=
  ⟨rfl, fun h => by rw [h]⟩

theorem hash_password_deterministic_witness :
    hash_password "pw" = hash_password "pw" :=
  (hash_password_deterministic "pw" "pw" "pw").2 rfl

/-- C3: `login_user u p` returns `true` iff the table has a row whose
username is `u` and whose stored digest is `hash_password p`; after a
successful signup with `(u, p)`, login with `(u, p)` succeeds and login
with any password hashing differently fails. -/
theorem login_iff_matching_row (table : UserTable) (u p : String) :
    (login_user table u p = true ↔
      ∃ r ∈ table, r.username = u ∧ r.password = hash_password p) ∧
    ∀ fn ln mob vn vt pBad : String,
      usernameTaken table u = false →
      hash_password pBad ≠ hash_password p →
      (signup_user table fn ln u p mob vn vt).1 = true ∧
      login_user (signup_user table fn ln u p mob vn vt).2 u p = true ∧
      login_user (signup_user table fn ln u p mob vn vt).2 u pBad = false := by
  constructor
  · simp [login_user, List.any_eq_true]
  · intro fn ln mob vn vt pBad hUT hBad
    have hrows : ∀ r ∈ table, ¬ r.username = u := by
      simpa [usernameTaken, List.any_eq_false] using hUT
    have hnew : (signup_user table fn ln u p mob vn vt).2 =
        table ++ [⟨fn, ln, u, hash_password p, mob, vn, vt⟩] := by
      simp [signup_user, hUT]
    refine ⟨by simp [signup_user, hUT], ?_, ?_⟩
    · rw [hnew]
      simp [login_user]
    · rw [hnew]
      simp only [login_user, List.any_append, List.any_cons, List.any_nil,
        Bool.or_eq_false_iff]
      constructor
      · rw [List.any_eq_false]
        intro r hr
        simp [hrows r hr]
      · simp [Ne.symm hBad]

set_option maxRecDepth 40000 in
theorem login_iff_matching_row_witness :
    (login_user [] "alice" "a" = true ↔
      ∃ r ∈ ([] : UserTable), r.username = "alice" ∧ r.password = hash_password "a") ∧
    (signup_user [] "Al" "Ice" "alice" "a" "77" "KA1" "Electric").1 = true ∧
    login_user (signup_user [] "Al" "Ice" "alice" "a" "77" "KA1" "Electric").2
      "alice" "a" = true ∧
    login_user (signup_user [] "Al" "Ice" "alice" "a" "77" "KA1" "Electric").2
      "alice" "b" = false :=
  ⟨(login_iff_matching_row [] "alice" "a").1,
   (login_iff_matching_row [] "alice" "a").2 "Al" "Ice" "77" "KA1" "Electric" "b"
     (by decide) (by decide)⟩

/-- C4 counterexample: on an explicit API error the returned pair is
("N/A", "City not found") while on a network failure it is
("N/A", "Error fetching data"): the city-name components of the two
failure kinds differ, so the pairs are not identical. -/
theorem weather_failure_pairs_differ_cex :
    (get_weather_details "Chennai"
        (.success ⟨some "error", some (.other "Unknown station")⟩)).2 ≠
    (get_weather_details "Chennai" .netError).2 := by
  decide

/-- C4 (amended): for every nonempty city and every response taking the
error branch, the index component of the result is the same "N/A" as on
a network failure, but the city-name components differ: the explicit
API-error sentinel is ("N/A", "City not found") while the
network-failure sentinel is ("N/A", "Error fetching data"). -/
theorem weather_failure_index_matches (city : String) (resp : WeatherResponse)
    (hc : city ≠ "") (he : weatherOk resp = false) :
    (get_weather_details city (.success resp)).1 =
      (get_weather_details city .netError).1 ∧
    get_weather_details city (.success resp) = ("N/A", "City not found") ∧
    get_weather_details city .netError = ("N/A", "Error fetching data") ∧
    (get_weather_details city (.success resp)).2 ≠
      (get_weather_details city .netError).2 := by
  have hs : get_weather_details city (.success resp) = ("N/A", "City not found") := by
    simp [get_weather_details, hc, he]
  have hn : get_weather_details city .netError = ("N/A", "Error fetching data") := by
    simp [get_weather_details, hc]
  refine ⟨?_, hs, hn, ?_⟩
  · rw [hs, hn]
  · rw [hs, hn]
    simp

theorem weather_failure_index_matches_witness :
    (get_weather_details "Chennai"
        (.success ⟨some "error", some (.other "Unknown station")⟩)).1 =
      (get_weather_details "Chennai" .netError).1 ∧
    get_weather_details "Chennai"
        (.success ⟨some "error", some (.other "Unknown station")⟩) =
      ("N/A", "City not found") ∧
    get_weather_details "Chennai" .netError = ("N/A", "Error fetching data") ∧
    (get_weather_details "Chennai"
        (.success ⟨some "error", some (.other "Unknown station")⟩)).2 ≠
      (get_weather_details "Chennai" .netError).2 :=
  weather_failure_index_matches "Chennai" ⟨some "error", some (.other "Unknown station")⟩
    (by decide) (by decide)

end Fedpath
